import Mathlib

/-!
Shallow embedding of the real-time chat server's delivery router
(`server/socket/index.js`, `server/server.js`, `server/controllers/messageController.js`,
`server/models/message.js`) and proofs about its claims.

Messages are modelled with string identifiers (Mongo ObjectIds become abstract
nonempty strings), `createdAt` timestamps become a monotone `Nat` counter
maintained by the store, and the socket.io side effects of each handler are
reified as explicit effect lists.
-/

namespace Chat

/-- Attachment metadata, from `attachmentSchema` in `models/message.js`:
`{url, filename, contentType, size}`. -/
structure Attachment where
  url : String
  filename : String
  contentType : String
  size : Nat
deriving Repr, DecidableEq

/-- A persisted message document, from `messageSchema` in `models/message.js`.
`meta.deliveredBy` is flattened to the `deliveredBy` field. -/
structure Msg where
  id : String
  roomId : String
  senderId : String
  senderName : String
  recipients : List String
  content : String
  attachments : List Attachment
  readBy : List String
  reactions : List (String × List String)
  deliveredBy : List String
  createdAt : Nat
deriving Repr, DecidableEq

/-- The message store: documents in creation order plus a fresh-id counter.
`createFails` models a storage-adapter failure on the next create
(`Message.create` throwing). -/
structure Store where
  msgs : List Msg
  nextId : Nat
  createFails : Bool
deriving Repr, DecidableEq

/-- The inbound `message:send` / `send_message` payload.  Optional fields of the
JS payload are `Option`s; JS falsiness of a missing or empty `roomId` is handled
at each use site exactly as the source does. -/
structure SendPayload where
  roomId : Option String
  senderId : String
  senderName : String
  recipients : List String
  content : Option String
  attachments : Option (List Attachment)
deriving Repr, DecidableEq

/-- `Message.create({roomId: payload.roomId || "global", ..., content: payload.content || "",
attachments: payload.attachments || []})` from both send handlers.  Succeeds unless
the storage adapter fails; no field validation is performed (the schema only
defaults `content` to `""` and `roomId` to `"global"`). -/
def mkMsg (store : Store) (p : SendPayload) : Msg :=
  { id := toString store.nextId
    roomId := match p.roomId with
      | none => "global"
      | some r => if r = "" then "global" else r
    senderId := p.senderId
    senderName := p.senderName
    recipients := p.recipients
    content := p.content.getD ""
    attachments := p.attachments.getD []
    readBy := []
    reactions := []
    deliveredBy := []
    createdAt := store.nextId }

/-- The store after a successful `Message.create`. -/
def createMessage (store : Store) (p : SendPayload) : Except Unit (Msg × Store) :=
  if store.createFails then .error ()
  else .ok (mkMsg store p,
    { store with msgs := store.msgs ++ [mkMsg store p], nextId := store.nextId + 1 })

/-- `Message.findById(id)`. -/
def findMsg (store : Store) (id : String) : Option Msg :=
  store.msgs.find? (fun m => m.id = id)

/-- Stable insertion of a message into a list ascending by `createdAt`. -/
def insertByCreatedAt (m : Msg) : List Msg → List Msg
  | [] => [m]
  | x :: xs => if m.createdAt < x.createdAt then m :: x :: xs else x :: insertByCreatedAt m xs

/-- `.sort({createdAt: 1})`: stable sort ascending by `createdAt`. -/
def sortByCreatedAt : List Msg → List Msg
  | [] => []
  | x :: xs => insertByCreatedAt x (sortByCreatedAt xs)

/-- `Message.find({roomId}).sort({createdAt: 1}).limit(100)` — the history fetch
performed by both the `user:join` handler (with `roomId = "global"`) and the
`room:join` handler in `server/socket/index.js`. -/
def fetchHistory (store : Store) (roomId : String) : List Msg :=
  (sortByCreatedAt (store.msgs.filter (fun m => m.roomId = roomId))).take 100

/-- The canonical private room key from the `private_message` handler:
`` `private:${[senderId, toUserId].sort().join(":")}` ``.  JS `Array.sort` on two
strings yields the lexicographically ascending pair (stable on ties). -/
def sortPair (a b : String) : List String :=
  if a ≤ b then [a, b] else [b, a]

/-- `"private:" + [senderId, toUserId].sort().join(":")`. -/
def privateRoomKey (senderId toUserId : String) : String :=
  "private:" ++ String.intercalate ":" (sortPair senderId toUserId)

/-- `payload.roomId || "global"`: JS falsiness of a missing or empty room id. -/
def jsRoomOrGlobal (p : SendPayload) : String :=
  match p.roomId with
  | none => "global"
  | some r => if r = "" then "global" else r

/-- `payload.roomId?.startsWith("private:")` — falsy when `roomId` is absent. -/
def roomIdPrivate (p : SendPayload) : Bool :=
  match p.roomId with
  | none => false
  | some r => r.startsWith "private:"

/-- `payload.roomId && payload.roomId !== "global"`: the truthy non-global room id,
if any (an absent or empty `roomId` is falsy in JS). -/
def roomIdNonGlobal (p : SendPayload) : Option String :=
  match p.roomId with
  | none => none
  | some r => if r = "" ∨ r = "global" then none else some r

/-- A socket.io emission target as used by the send handlers. -/
inductive FanTarget where
  /-- `io.to(r).emit(...)` / `chatNamespace.to(r).emit(...)` -/
  | toRoom (r : String)
  /-- `socket.emit(...)` — echo to the sending connection only -/
  | senderSelf
  /-- `io.emit(...)` / `chatNamespace.emit(...)` — every connected connection -/
  | allConns
deriving Repr, DecidableEq

/-- A reified side effect of a send handler. -/
inductive SendEffect where
  /-- emission of a message event carrying the persisted document -/
  | emitMsg (target : FanTarget) (event : String) (msgId : String)
  /-- a `"notification"` event emitted to all connections -/
  | notifyAll (ntype : String) (roomId : String) (senderName : String)
  /-- `callback(null, {status: "delivered", message: msgDoc})` -/
  | ackOk (msgId : String)
  /-- `callback(err)` -/
  | ackErr
deriving Repr, DecidableEq

/-- Destination resolution of the `send_message` handler in `server/server.js`
(lines 111–126): the `private:`-room branch, the recipients branch (per-recipient
`user:<id>` rooms plus an echo to the sender), the non-global room branch, and
the global broadcast; each branch also emits the backward-compatible
`receive_message`. -/
def sendMessageFanout (p : SendPayload) (m : Msg) : List SendEffect :=
  if roomIdPrivate p then
    [.emitMsg (.toRoom (p.roomId.getD "")) "message:new" m.id,
     .emitMsg (.toRoom (p.roomId.getD "")) "receive_message" m.id]
  else if p.recipients ≠ [] then
    (p.recipients.map (fun rid => .emitMsg (.toRoom ("user:" ++ rid)) "message:new" m.id))
      ++ [.emitMsg .senderSelf "message:new" m.id,
          .emitMsg .senderSelf "receive_message" m.id]
  else
    match roomIdNonGlobal p with
    | some r =>
        [.emitMsg (.toRoom r) "message:new" m.id,
         .emitMsg (.toRoom r) "receive_message" m.id]
    | none =>
        [.emitMsg .allConns "message:new" m.id,
         .emitMsg .allConns "receive_message" m.id]

/-- The `send_message` handler of `server/server.js` (lines 98–146): persist via
`Message.create`, fan out, emit the global `"notification"`, then acknowledge
with the persisted document; on a thrown error, acknowledge with the error.
The callback is assumed to be a function (the client always passes one). -/
def sendMessageHandler (store : Store) (p : SendPayload) : Store × List SendEffect :=
  match createMessage store p with
  | .error _ => (store, [.ackErr])
  | .ok (m, store1) =>
      (store1,
        sendMessageFanout p m
          ++ [.notifyAll "new-message" (jsRoomOrGlobal p) p.senderName,
              .ackOk m.id])

/-- Destination resolution of the `message:send` handler in
`server/socket/index.js` (lines 100–111): same cascade as `send_message` but
emitting only `message:new`. -/
def messageSendFanout (p : SendPayload) (m : Msg) : List SendEffect :=
  if roomIdPrivate p then
    [.emitMsg (.toRoom (p.roomId.getD "")) "message:new" m.id]
  else if p.recipients ≠ [] then
    (p.recipients.map (fun rid => .emitMsg (.toRoom ("user:" ++ rid)) "message:new" m.id))
      ++ [.emitMsg .senderSelf "message:new" m.id]
  else
    match roomIdNonGlobal p with
    | some r => [.emitMsg (.toRoom r) "message:new" m.id]
    | none => [.emitMsg .allConns "message:new" m.id]

/-- The `message:send` handler of `server/socket/index.js` (lines 88–121):
persist, fan out, emit the global `"notification"`.  The handler takes no
acknowledgement callback; a thrown error is only logged. -/
def messageSendHandler (store : Store) (p : SendPayload) : Store × List SendEffect :=
  match createMessage store p with
  | .error _ => (store, [])
  | .ok (m, store1) =>
      (store1,
        messageSendFanout p m
          ++ [.notifyAll "new-message" (jsRoomOrGlobal p) p.senderName])

/-- Whether an effect is an invocation of the acknowledgement callback. -/
def isAck : SendEffect → Bool
  | .ackOk _ => true
  | .ackErr => true
  | _ => false

/-- Number of acknowledgement-callback invocations among a handler's effects. -/
def ackCount (effs : List SendEffect) : Nat :=
  (effs.filter isAck).length

/-- The empty store. -/
def store0 : Store := { msgs := [], nextId := 0, createFails := false }

/-- A minimal global message with id and timestamp `n`, as the store would
create it. -/
def histMsg (n : Nat) : Msg :=
  { id := toString n, roomId := "global", senderId := "u1", senderName := "alice",
    recipients := [], content := "m", attachments := [], readBy := [],
    reactions := [], deliveredBy := [], createdAt := n }

/-- A store holding 120 messages in `"global"`, created in timestamp order. -/
def store120 : Store :=
  { msgs := (List.range 120).map histMsg, nextId := 120, createFails := false }

/-- `toggleUsers` is the in-place membership toggle on a reaction entry's user
list, from `server/socket/index.js` lines 190–192: `findIndex` then `push` or
`splice(idx, 1)` (remove the first occurrence). -/
def toggleUsers (users : List String) (uid : String) : List String :=
  if uid ∈ users then users.erase uid else users ++ [uid]

/-- The reaction-toggle state update of the `message:react` handler
(`server/socket/index.js` lines 185–193): find the first entry for the emoji;
if none, push `{emoji, users: [userId]}`; else toggle the user's membership in
that entry — the entry itself is never removed. -/
def toggleReaction : List (String × List String) → String → String → List (String × List String)
  | [], emoji, uid => [(emoji, [uid])]
  | r :: rs, emoji, uid =>
      if r.1 = emoji then (r.1, toggleUsers r.2 uid) :: rs
      else r :: toggleReaction rs emoji uid

/-- `msg.reactions.find((r) => r.emoji === emoji)`. -/
def firstReaction (rs : List (String × List String)) (emoji : String) :
    Option (String × List String) :=
  rs.find? (fun r => r.1 = emoji)

/-- Whether the identity is a member of the emoji's (first) reaction entry. -/
def reactMem (rs : List (String × List String)) (emoji uid : String) : Bool :=
  match firstReaction rs emoji with
  | none => false
  | some r => decide (uid ∈ r.2)

/-- Whether a reaction entry for the emoji exists. -/
def hasReaction (rs : List (String × List String)) (emoji : String) : Bool :=
  (firstReaction rs emoji).isSome

/-- Occurrence count of the identity in the emoji's (first) reaction entry. -/
def reactCount (rs : List (String × List String)) (emoji uid : String) : Nat :=
  match firstReaction rs emoji with
  | none => 0
  | some r => r.2.count uid

/-- `n` sequential applications of the reaction toggle for the same message,
emoji and identity. -/
def toggleN (n : Nat) (rs : List (String × List String)) (emoji uid : String) :
    List (String × List String) :=
  match n with
  | 0 => rs
  | k + 1 => toggleReaction (toggleN k rs emoji uid) emoji uid

/-- `msg.save()`: write the mutated document back to the store. -/
def saveMsg (store : Store) (m : Msg) : Store :=
  { store with msgs := store.msgs.map (fun x => if x.id = m.id then m else x) }

/-- The `message:read` handler of `server/socket/index.js` (lines 158–175):
guard on falsy ids, fetch, append to `readBy` and save only when the identity
is not already present, then always broadcast `{messageId, userId}` to the
message's room (`msg.roomId || "global"`).  Returns the new store, whether a
persistence write happened, and the room-scoped `message:read` broadcasts as
`(room, messageId, userId)` triples. -/
def messageRead (store : Store) (messageId userId : String) :
    Store × Bool × List (String × String × String) :=
  if messageId = "" ∨ userId = "" then (store, false, [])
  else
    match findMsg store messageId with
    | none => (store, false, [])
    | some msg =>
        let st :=
          if userId ∈ msg.readBy then (store, false)
          else (saveMsg store { msg with readBy := msg.readBy ++ [userId] }, true)
        (st.1, st.2, [(if msg.roomId = "" then "global" else msg.roomId, messageId, userId)])

/-- A Send payload with empty content and an empty attachments list. -/
def emptySendPayload : SendPayload :=
  { roomId := none, senderId := "u1", senderName := "alice",
    recipients := [], content := some "", attachments := some [] }

/-- An ordinary global Send payload. -/
def plainSendPayload : SendPayload :=
  { roomId := some "global", senderId := "u1", senderName := "alice",
    recipients := [], content := some "hi", attachments := none }

/-- A user document, from `userSchema` in `models/user.js`
(`_id` is modelled as `uid`). -/
structure PUser where
  uid : String
  username : String
  isOnline : Bool
  socketId : Option String
deriving Repr, DecidableEq

/-- `Map.set` on the `onlineUsers` map (`socketId -> user object`,
`server/socket/index.js` line 6): replace in place if the key exists, else
append in insertion order. -/
def mapSet (m : List (String × PUser)) (k : String) (v : PUser) :
    List (String × PUser) :=
  if m.any (fun p => p.1 = k) then m.map (fun p => if p.1 = k then (k, v) else p)
  else m ++ [(k, v)]

/-- `Map.get`. -/
def mapLookup (m : List (String × PUser)) (k : String) : Option PUser :=
  (m.find? (fun p => p.1 = k)).map Prod.snd

/-- One entry of the `users:online` broadcast built by `broadcastOnlineUsers`:
`{_id, username, isOnline}` per map value. -/
structure Snap where
  uid : String
  username : String
  isOnline : Bool
deriving Repr, DecidableEq

/-- `Array.from(onlineUsers.values()).map(u => ({_id, username, isOnline}))`. -/
def snapshot (m : List (String × PUser)) : List Snap :=
  m.map (fun p => ⟨p.2.uid, p.2.username, p.2.isOnline⟩)

/-- The `user:join` payload `{username, userId}`. -/
structure JoinPayload where
  username : Option String
  userId : Option String
deriving Repr, DecidableEq

/-- `User.findById`. -/
def findUserById (db : List PUser) (i : String) : Option PUser :=
  db.find? (fun u => u.uid = i)

/-- `User.findOne({username})`. -/
def findUserByName (db : List PUser) (n : String) : Option PUser :=
  db.find? (fun u => u.username = n)

/-- `user.save()`: write the user document back to the store. -/
def dbSave (db : List PUser) (u : PUser) : List PUser :=
  db.map (fun x => if x.uid = u.uid then u else x)

/-- The `user:join` handler of `server/socket/index.js` (lines 31–64), reduced
to its user-resolution and presence mutation: resolve by truthy `userId`, else
by truthy `username` (finding or creating), then set `isOnline`/`socketId`,
save, and `onlineUsers.set(socket.id, user)`.  Returns the new user store and
the new `onlineUsers` map; new user documents get an opaque fresh id. -/
def userJoin (db : List PUser) (online : List (String × PUser)) (sid : String)
    (p : JoinPayload) : List PUser × List (String × PUser) :=
  let u0 : Option PUser :=
    match p.userId with
    | some i => if i = "" then none else findUserById db i
    | none => none
  let resolved : Option PUser × List PUser :=
    match u0 with
    | some u => (some u, db)
    | none =>
        match p.username with
        | some name =>
            if name = "" then (none, db)
            else
              match findUserByName db name with
              | some u => (some u, db)
              | none =>
                  let nu : PUser := ⟨"new:" ++ toString db.length, name, true, some sid⟩
                  (some nu, db ++ [nu])
        | none => (none, db)
  match resolved with
  | (none, db1) => (db1, online)
  | (some u, db1) =>
      let u1 : PUser := { u with isOnline := true, socketId := some sid }
      (dbSave db1 u1, mapSet online sid u1)

/-- A user store holding one offline user `u1`. -/
def dbU1 : List PUser := [⟨"u1", "alice", false, none⟩]

/-- The `private_message` payload
`{toUserId, content, senderId, senderName, attachments}`. -/
structure PrivatePayload where
  toUserId : String
  senderId : String
  senderName : String
  content : String
  attachments : Option (List Attachment)
deriving Repr, DecidableEq

/-- The audience of a `"notification"` emission. -/
inductive NotifyTarget where
  /-- `io.emit(...)`: every connected connection -/
  | allConns
  /-- `io.to("user:" + id).emit(...)`: the identity's own connections -/
  | userRoom (userId : String)
deriving Repr, DecidableEq

/-- A reified side effect of the `private_message` handler. -/
inductive PMEffect where
  /-- `socket.join(roomId)` -/
  | joinSender (room : String)
  /-- `io.to("user:" + toUserId).socketsJoin(roomId)` -/
  | joinUserSockets (userId room : String)
  /-- `io.to(roomId).emit("message:new", msgDoc)` -/
  | emitRoom (room event msgId : String)
  /-- a `"notification"` event with type, `from` name and `toUserId` data -/
  | notify (target : NotifyTarget) (ntype fromName toUserId : String)
deriving Repr, DecidableEq

/-- The `private_message` handler of `server/socket/index.js` (lines 126–153):
compute the canonical room key, persist, join the sender and the recipient's
sockets to the room, fan out `message:new` to the room, then call
`sendNotification("private-message", ...)` — which is `io.emit` (lines 24–26),
i.e. a broadcast to every connected connection. -/
def privateMessageHandler (store : Store) (p : PrivatePayload) :
    Store × List PMEffect :=
  let roomId := privateRoomKey p.senderId p.toUserId
  match createMessage store
      { roomId := some roomId, senderId := p.senderId,
        senderName := p.senderName, recipients := [p.toUserId],
        content := some p.content, attachments := p.attachments } with
  | .error _ => (store, [])
  | .ok (m, store1) =>
      (store1,
        [.joinSender roomId,
         .joinUserSockets p.toUserId roomId,
         .emitRoom roomId "message:new" m.id,
         .notify .allConns "private-message" p.senderName p.toUserId])

/-- The audiences of the notification effects among a handler's effects. -/
def notifyTargets (effs : List PMEffect) : List NotifyTarget :=
  effs.filterMap (fun e =>
    match e with
    | .notify t _ _ _ => some t
    | _ => none)

/-- A private message from `u1` to `u2`. -/
def pmPayloadW : PrivatePayload := ⟨"u2", "u1", "alice", "hi", none⟩

/-- The `message:delivered` payload `{messageId, userId}`. -/
structure DeliveredPayload where
  messageId : String
  userId : String
deriving Repr, DecidableEq

/-- A reified side effect of the `message:delivered` handlers. -/
inductive DlvEffect where
  /-- `io.emit(event, {messageId, userId})`: every connected connection -/
  | emitAll (event messageId userId : String)
  /-- `socket.broadcast.emit(event, payload)`: every connection except the
  sender -/
  | broadcastToOthers (event messageId userId : String)
deriving Repr, DecidableEq

/-- The persisting `message:delivered` handler registered by
`socketHandler(chatNamespace)` (`server/socket/index.js` lines 215–231): fetch
the message (silent no-op when absent), append the user to the delivery set if
absent and save, then `io.emit("message:delivered", {messageId, userId})`. -/
def messageDeliveredPersist (store : Store) (p : DeliveredPayload) :
    Store × List DlvEffect :=
  match findMsg store p.messageId with
  | none => (store, [])
  | some msg =>
      let store1 :=
        if p.userId ∈ msg.deliveredBy then store
        else saveMsg store { msg with deliveredBy := msg.deliveredBy ++ [p.userId] }
      (store1, [.emitAll "message:delivered" p.messageId p.userId])

/-- The second `message:delivered` handler registered on the same namespace
connection in `server/server.js` (lines 148–150): rebroadcast the raw payload
as `message:delivered:update` to every connection except the sender,
unconditionally. -/
def messageDeliveredUpdate (p : DeliveredPayload) : List DlvEffect :=
  [.broadcastToOthers "message:delivered:update" p.messageId p.userId]

/-- Both handlers are registered for the same inbound event
(`socketHandler(chatNamespace)` at `server/server.js` line 92, then the inline
`chatNamespace.on("connection", ...)` from line 94), so an inbound
`message:delivered` runs them in registration order. -/
def messageDeliveredDispatch (store : Store) (p : DeliveredPayload) :
    Store × List DlvEffect :=
  let r := messageDeliveredPersist store p
  (r.1, r.2 ++ messageDeliveredUpdate p)

/-- The transport state needed to resolve a fan-out: connected socket ids and
the room-membership index (socket.io's room map: room id ↦ member sockets,
where `user:<id>` rooms are joined on `user:join` / `socketsJoin`). -/
structure Net where
  conns : List String
  rooms : List (String × List String)
deriving Repr, DecidableEq

/-- The member connections of a room (empty when the room has no members). -/
def membersOf (net : Net) (r : String) : List String :=
  match net.rooms.find? (fun q => q.1 = r) with
  | none => []
  | some q => q.2

/-- The set of connections reached by the `message:send` cascade of
`server/socket/index.js` lines 100–111, at the transport level:
`io.to(roomId)` resolves to the room's members, `io.to("user:" + rid)` to the
recipient's user room, `socket.emit` to the sender connection, `io.emit` to
every connection. -/
def codeTargets (net : Net) (senderConn : String) (p : SendPayload) :
    List String :=
  if roomIdPrivate p then membersOf net (p.roomId.getD "")
  else if p.recipients ≠ [] then
    (p.recipients.flatMap (fun rid => membersOf net ("user:" ++ rid))) ++ [senderConn]
  else
    match roomIdNonGlobal p with
    | some r => membersOf net r
    | none => net.conns

/-- Modelled from the spec's destination-resolution words (§4.4 Send): priority
order — `private:` room members; else non-empty `recipientIds` resolved through
the presence tracker's inverse map (identity id ↦ live connection, identities
with no live connection silently skipped) plus an echo to the sender's own
connection; else a given non-`"global"` room's members; else every connected
connection. -/
def specTargets (net : Net) (presence : List (String × String))
    (senderConn : String) (p : SendPayload) : List String :=
  if roomIdPrivate p then membersOf net (p.roomId.getD "")
  else if p.recipients ≠ [] then
    (p.recipients.filterMap
        (fun rid => (presence.find? (fun q => q.1 = rid)).map Prod.snd))
      ++ [senderConn]
  else
    match roomIdNonGlobal p with
    | some r => membersOf net r
    | none => net.conns

end Chat

namespace Chat

/-- C5: the private room key is symmetric in its two arguments: for distinct
identity ids `a` and `b`, the key computed from `(a, b)` equals the key computed
from `(b, a)` — both are `"private:"` followed by the two ids sorted
lexicographically and joined. -/
theorem privateRoomKey_symm (a b : String) (h : a ≠ b) :
    privateRoomKey a b = privateRoomKey b a := by
  unfold privateRoomKey sortPair
  rcases le_total a b with hab | hba
  · have hnba : ¬ b ≤ a := fun hba => h (le_antisymm hab hba)
    rw [if_pos hab, if_neg hnba]
  · have hnab : ¬ a ≤ b := fun hab => h (le_antisymm hab hba)
    rw [if_neg hnab, if_pos hba]

/-- Witness for C5 at the concrete pair `("u2", "u1")`. -/
theorem privateRoomKey_symm_witness :
    ("u2" : String) ≠ "u1" ∧ privateRoomKey "u2" "u1" = privateRoomKey "u1" "u2" :=
  ⟨by decide, privateRoomKey_symm "u2" "u1" (by decide)⟩

lemma ackCount_append (a b : List SendEffect) :
    ackCount (a ++ b) = ackCount a + ackCount b := by
  simp [ackCount, List.filter_append]

/-- The fan-out emissions of `send_message` contain no acknowledgement. -/
lemma sendMessageFanout_no_ack (p : SendPayload) (m : Msg) :
    ∀ e ∈ sendMessageFanout p m, isAck e = false := by
  intro e he
  unfold sendMessageFanout at he
  split at he
  · simp only [List.mem_cons, List.not_mem_nil, or_false] at he
    rcases he with rfl | rfl <;> rfl
  · split at he
    · simp only [List.mem_append, List.mem_map, List.mem_cons, List.not_mem_nil,
        or_false] at he
      rcases he with ⟨a, _, rfl⟩ | rfl | rfl <;> rfl
    · split at he <;>
        (simp only [List.mem_cons, List.not_mem_nil, or_false] at he ;
         rcases he with rfl | rfl <;> rfl)

/-- The fan-out emissions of `message:send` contain no acknowledgement. -/
lemma messageSendFanout_no_ack (p : SendPayload) (m : Msg) :
    ∀ e ∈ messageSendFanout p m, isAck e = false := by
  intro e he
  unfold messageSendFanout at he
  split at he
  · simp only [List.mem_singleton] at he; subst he; rfl
  · split at he
    · simp only [List.mem_append, List.mem_map, List.mem_singleton] at he
      rcases he with ⟨a, _, rfl⟩ | rfl <;> rfl
    · split at he <;>
        (simp only [List.mem_singleton] at he ; subst he ; rfl)

lemma ackCount_eq_zero {effs : List SendEffect}
    (h : ∀ e ∈ effs, isAck e = false) : ackCount effs = 0 := by
  induction effs with
  | nil => rfl
  | cons x xs ih =>
      have hx := h x (List.mem_cons_self x xs)
      have ihh := ih (fun e he => h e (List.mem_cons_of_mem x he))
      simp [ackCount, List.filter_cons, hx] at ihh ⊢
      exact ihh

lemma ackErr_not_mem {effs : List SendEffect}
    (h : ∀ e ∈ effs, isAck e = false) : SendEffect.ackErr ∉ effs :=
  fun hm => by simpa [isAck] using h _ hm

/-- C1 counterexample: sending a payload with empty content and an empty
attachments list DOES persist a Message and the acknowledgement reports
success, contradicting the claimed ValidationError with no persistence. -/
theorem sendEmpty_persisted_and_acked_ok :
    (sendMessageHandler store0 emptySendPayload).1.msgs.length = 1 ∧
    SendEffect.ackOk "0" ∈ (sendMessageHandler store0 emptySendPayload).2 ∧
    SendEffect.ackErr ∉ (sendMessageHandler store0 emptySendPayload).2 := by
  decide

/-- C1 (amended): the `send_message` handler performs no emptiness validation:
for every payload — including one with empty or absent content and attachments —
whenever the storage adapter does not fail, a Message is persisted with content
`payload.content || ""` and attachments `payload.attachments || []`, and the
acknowledgement reports success with the persisted document; the failure
acknowledgement arises only from a storage error, never from validation. -/
theorem sendMessage_no_validation (store : Store) (p : SendPayload)
    (h : store.createFails = false) :
    (sendMessageHandler store p).1.msgs.length = store.msgs.length + 1 ∧
    (∃ m, (sendMessageHandler store p).1.msgs.getLast? = some m ∧
       m.content = p.content.getD "" ∧
       m.attachments = p.attachments.getD [] ∧
       SendEffect.ackOk m.id ∈ (sendMessageHandler store p).2) ∧
    SendEffect.ackErr ∉ (sendMessageHandler store p).2 ∧
    (messageSendHandler store p).1.msgs.length = store.msgs.length + 1 := by
  have hc : createMessage store p = .ok (mkMsg store p,
      { store with msgs := store.msgs ++ [mkMsg store p], nextId := store.nextId + 1 }) := by
    unfold createMessage
    rw [h]
    rfl
  simp only [sendMessageHandler, messageSendHandler, hc]
  refine ⟨by simp, ⟨mkMsg store p, by simp, rfl, rfl, by simp⟩, ?_, by simp⟩
  intro hmem
  rcases List.mem_append.1 hmem with hl | hr
  · exact ackErr_not_mem (sendMessageFanout_no_ack p _) hl
  · simp at hr

/-- Witness for C1's amended theorem at the empty payload on the empty store. -/
theorem sendMessage_no_validation_witness :
    store0.createFails = false ∧
    ((sendMessageHandler store0 emptySendPayload).1.msgs.length =
        store0.msgs.length + 1 ∧
     (∃ m, (sendMessageHandler store0 emptySendPayload).1.msgs.getLast? = some m ∧
        m.content = emptySendPayload.content.getD "" ∧
        m.attachments = emptySendPayload.attachments.getD [] ∧
        SendEffect.ackOk m.id ∈ (sendMessageHandler store0 emptySendPayload).2) ∧
     SendEffect.ackErr ∉ (sendMessageHandler store0 emptySendPayload).2 ∧
     (messageSendHandler store0 emptySendPayload).1.msgs.length =
       store0.msgs.length + 1) :=
  ⟨rfl, sendMessage_no_validation store0 emptySendPayload rfl⟩

/-- C2 counterexample: the `message:send` handler of `server/socket/index.js`
invokes no acknowledgement callback at all — an ordinary Send completes with
zero acknowledgements, not exactly one. -/
theorem messageSend_zero_acks :
    ackCount (messageSendHandler store0 plainSendPayload).2 = 0 ∧ (0 : Nat) ≠ 1 := by
  decide

/-- C2 (amended): the acknowledgement-bearing Send path is `send_message`
(`server/server.js`): for every store state (storage success or failure) and
every payload, its handler invokes the acknowledgement callback exactly once —
`callback(null, ...)` on success, `callback(err)` on failure.  The parallel
`message:send` handler of `server/socket/index.js` never invokes an
acknowledgement. -/
theorem sendMessage_ack_exactly_once (store : Store) (p : SendPayload) :
    ackCount (sendMessageHandler store p).2 = 1 ∧
    ackCount (messageSendHandler store p).2 = 0 := by
  constructor
  · rcases hc : createMessage store p with e | ⟨m, store1⟩
    · simp only [sendMessageHandler, hc]
      rfl
    · simp only [sendMessageHandler, hc]
      rw [ackCount_append, ackCount_eq_zero (sendMessageFanout_no_ack p m)]
      rfl
  · rcases hc : createMessage store p with e | ⟨m, store1⟩
    · simp only [messageSendHandler, hc]
      rfl
    · simp only [messageSendHandler, hc]
      rw [ackCount_append, ackCount_eq_zero (messageSendFanout_no_ack p m)]
      rfl

/-- C3 (code evaluated at the failing input): with 120 messages in `"global"`,
the history fetch of `user:join` / `room:join` returns the OLDEST 100 — the
ascending `createdAt` sort is applied before the limit — excluding the newest
messages, not the most recent 100 that the spec describes. -/
theorem fetchHistory_returns_oldest :
    fetchHistory store120 "global" = (List.range 100).map histMsg ∧
    histMsg 119 ∉ fetchHistory store120 "global" ∧
    histMsg 100 ∉ fetchHistory store120 "global" := by
  decide

lemma reactCount_toggle (rs : List (String × List String)) (e u : String) :
    reactCount (toggleReaction rs e u) e u =
      if reactCount rs e u = 0 then 1 else reactCount rs e u - 1 := by
  induction rs with
  | nil => simp [reactCount, toggleReaction, firstReaction, List.find?]
  | cons r rs ih =>
      by_cases hr : r.1 = e
      · by_cases hu : u ∈ r.2
        · have hpos : 0 < r.2.count u := List.count_pos_iff.2 hu
          simp [toggleReaction, hr, reactCount, firstReaction, List.find?,
            toggleUsers, hu, List.count_erase_self, Nat.pos_iff_ne_zero.mp hpos]
        · have hzero : r.2.count u = 0 := List.count_eq_zero_of_not_mem hu
          simp [toggleReaction, hr, reactCount, firstReaction, List.find?,
            toggleUsers, hu, List.count_append, hzero]
      · simpa [toggleReaction, hr, reactCount, firstReaction, List.find?]
          using ih

lemma reactMem_eq_count (rs : List (String × List String)) (e u : String) :
    reactMem rs e u = decide (0 < reactCount rs e u) := by
  unfold reactMem reactCount
  cases firstReaction rs e with
  | none => rfl
  | some r =>
      by_cases hu : u ∈ r.2
      · simp [hu, List.count_pos_iff.2 hu]
      · simp [hu, List.count_eq_zero_of_not_mem hu]

lemma reactCount_toggleN (rs : List (String × List String)) (e u : String)
    (h : reactCount rs e u = 0) (n : Nat) :
    reactCount (toggleN n rs e u) e u = n % 2 := by
  induction n with
  | zero => simpa [toggleN] using h
  | succ k ih =>
      show reactCount (toggleReaction (toggleN k rs e u) e u) e u = (k + 1) % 2
      rw [reactCount_toggle, ih]
      rcases Nat.mod_two_eq_zero_or_one k with h2 | h2 <;>
        simp [h2, Nat.add_mod k 1 2]

/-- C6: starting from a state where the identity is absent from the emoji's
reaction entry, `n` sequential toggles leave the membership equal to the parity
of `n`; and toggling never deletes an existing emoji entry — in particular,
removing the last user leaves the entry with an empty user list. -/
theorem reaction_toggle_parity_entry_kept :
    (∀ (rs : List (String × List String)) (e u : String) (n : Nat),
        reactCount rs e u = 0 →
        (reactMem (toggleN n rs e u) e u = true ↔ n % 2 = 1)) ∧
    (∀ (rs : List (String × List String)) (e u : String),
        firstReaction rs e = some (e, [u]) →
        firstReaction (toggleReaction rs e u) e = some (e, [])) := by
  constructor
  · intro rs e u n h
    rw [reactMem_eq_count, reactCount_toggleN rs e u h n]
    rcases Nat.mod_two_eq_zero_or_one n with h2 | h2 <;> simp [h2]
  · intro rs e u h
    induction rs with
    | nil => simp [firstReaction] at h
    | cons r rs ih =>
        by_cases hr : r.1 = e
        · have hfind : firstReaction (r :: rs) e = some r := by
            simp [firstReaction, List.find?, hr]
          rw [hfind] at h
          have hr2 : r = (e, [u]) := by exact Option.some.inj h
          subst hr2
          simp [toggleReaction, firstReaction, List.find?, toggleUsers,
            List.erase_cons_head]
        · have hfind : firstReaction (r :: rs) e = firstReaction rs e := by
            simp [firstReaction, List.find?, hr]
          rw [hfind] at h
          simpa [toggleReaction, hr, firstReaction, List.find?] using ih h

/-- Witness for C6: three toggles from the empty reaction state yield
membership (odd parity), and toggling the sole member away keeps the entry with
an empty user list. -/
theorem reaction_toggle_witness :
    reactMem (toggleN 3 [] "heart" "u1") "heart" "u1" = true ∧
    firstReaction (toggleReaction [("heart", ["u1"])] "heart" "u1") "heart" =
      some ("heart", []) :=
  ⟨(reaction_toggle_parity_entry_kept.1 [] "heart" "u1" 3 (by decide)).2 (by decide),
   reaction_toggle_parity_entry_kept.2 [("heart", ["u1"])] "heart" "u1" (by decide)⟩

lemma find?_replace (l : List Msg) (i : String) (m' : Msg) (hid : m'.id = i)
    (hex : (l.find? (fun x => x.id = i)).isSome) :
    (l.map (fun x => if x.id = m'.id then m' else x)).find? (fun x => x.id = i) =
      some m' := by
  induction l with
  | nil => simp at hex
  | cons x xs ih =>
      by_cases hx : x.id = i
      · have hxm : x.id = m'.id := by rw [hid, hx]
        simp [List.find?, hxm, hid]
      · have hxm : ¬ x.id = m'.id := by rw [hid]; exact hx
        have hex2 : (xs.find? (fun y => y.id = i)).isSome := by
          simpa [List.find?, hx] using hex
        simpa [List.find?, hxm, hx] using ih hex2

/-- C7: for a read receipt carrying nonempty ids that hits an existing message:
if the identity is already in `readBy`, the store is unchanged and no
persistence write occurs; if not, the identity is appended once and saved; and
in both cases exactly one `{messageId, userId}` broadcast goes to the message's
room. -/
theorem messageRead_idempotent_always_broadcasts (store : Store)
    (messageId userId : String) (msg : Msg)
    (hfind : findMsg store messageId = some msg)
    (hmid : messageId ≠ "") (huid : userId ≠ "") :
    ((userId ∈ msg.readBy →
        (messageRead store messageId userId).1 = store ∧
        (messageRead store messageId userId).2.1 = false) ∧
     (userId ∉ msg.readBy →
        (messageRead store messageId userId).2.1 = true ∧
        findMsg (messageRead store messageId userId).1 messageId =
          some { msg with readBy := msg.readBy ++ [userId] })) ∧
    (messageRead store messageId userId).2.2 =
      [(if msg.roomId = "" then "global" else msg.roomId, messageId, userId)] := by
  have hidm : msg.id = messageId := by
    have := List.find?_some hfind
    simpa using this
  unfold messageRead
  rw [if_neg (by simp [hmid, huid]), hfind]
  refine ⟨⟨?_, ?_⟩, ?_⟩
  · intro hin
    simp [hin]
  · intro hin
    refine ⟨by simp [hin], ?_⟩
    have hex : (store.msgs.find? (fun x => x.id = messageId)).isSome := by
      unfold findMsg at hfind
      simp [hfind]
    simpa [hin, findMsg, saveMsg] using
      find?_replace store.msgs messageId { msg with readBy := msg.readBy ++ [userId] }
        (by simpa using hidm) hex
  · rfl

/-- A message already read by `"u2"`, and a store holding only it. -/
def readMsgW : Msg :=
  { id := "5", roomId := "global", senderId := "u1", senderName := "alice",
    recipients := [], content := "hi", attachments := [], readBy := ["u2"],
    reactions := [], deliveredBy := [], createdAt := 0 }

/-- Store for the C7 witness. -/
def readStoreW : Store := { msgs := [readMsgW], nextId := 6, createFails := false }

/-- Witness for C7: re-reading an already-read message leaves the store
unchanged, does not write, and still broadcasts to the message's room. -/
theorem messageRead_witness :
    (messageRead readStoreW "5" "u2").1 = readStoreW ∧
    (messageRead readStoreW "5" "u2").2.1 = false ∧
    (messageRead readStoreW "5" "u2").2.2 = [("global", "5", "u2")] := by
  have h := messageRead_idempotent_always_broadcasts readStoreW "5" "u2" readMsgW
    (by decide) (by decide) (by decide)
  exact ⟨(h.1.1 (by decide)).1, (h.1.1 (by decide)).2, by simpa [readMsgW] using h.2⟩

/-- State after identity `u1` joins from socket `s1`. -/
def joinState1 : List PUser × List (String × PUser) :=
  userJoin dbU1 [] "s1" ⟨none, some "u1"⟩

/-- State after identity `u1` then joins from socket `s2`. -/
def joinState2 : List PUser × List (String × PUser) :=
  userJoin joinState1.1 joinState1.2 "s2" ⟨none, some "u1"⟩

/-- C8 counterexample: when identity `u1` joins from `s1` and then from `s2`,
the older connection's presence entry is NOT evicted (it is still present under
key `s1`), and the online-users snapshot lists `u1` twice, not exactly once. -/
theorem second_join_duplicates_presence :
    (mapLookup joinState2.2 "s1").isSome = true ∧
    ((snapshot joinState2.2).filter (fun s => s.uid = "u1")).length = 2 ∧
    (2 : Nat) ≠ 1 := by
  decide

lemma find?_mapSet_ne (m : List (String × PUser)) (s1 s2 : String) (v : PUser)
    (hne : s1 ≠ s2) :
    (mapSet m s2 v).find? (fun p => p.1 = s1) = m.find? (fun p => p.1 = s1) := by
  unfold mapSet
  by_cases hany : m.any (fun p => p.1 = s2)
  · rw [if_pos hany]
    clear hany
    induction m with
    | nil => rfl
    | cons x xs ih =>
        by_cases hx2 : x.1 = s2
        · have hx1 : ¬ x.1 = s1 := by rw [hx2]; exact fun h => hne h.symm
          have hs21 : ¬ (s2 = s1) := fun h => hne h.symm
          simpa [List.find?, hx2, hx1, hs21] using ih
        · by_cases hx1 : x.1 = s1
          · simp [List.find?, hx2, hx1, hne]
          · simpa [List.find?, hx2, hx1] using ih
  · rw [if_neg hany, List.find?_append]
    cases h : m.find? (fun p => p.1 = s1) with
    | some w => rfl
    | none =>
        have hs21 : ¬ (s2 = s1) := fun h => hne h.symm
        simp [List.find?, hs21]

/-- C8 (amended): the presence map is keyed by the connection's socket id and a
join mutates it only through `Map.set(socket.id, user)`; hence when the same
identity joins from a newer, distinct connection, the older connection's entry
is NOT evicted — every other socket id's entry is untouched — so the
online-users snapshot lists the identity once per joined connection (while the
older transport is indeed not closed). -/
theorem join_presence_keyed_by_socket (db : List PUser)
    (online : List (String × PUser)) (sid uid : String) (u : PUser)
    (hfind : findUserById db uid = some u) (huid : uid ≠ "") :
    (userJoin db online sid ⟨none, some uid⟩).2 =
      mapSet online sid { u with isOnline := true, socketId := some sid } ∧
    ∀ m : List (String × PUser), ∀ s1 s2 : String, ∀ v : PUser, s1 ≠ s2 →
      mapLookup (mapSet m s2 v) s1 = mapLookup m s1 := by
  constructor
  · simp [userJoin, huid, hfind]
  · intro m s1 s2 v hne
    unfold mapLookup
    rw [find?_mapSet_ne m s1 s2 v hne]

/-- Witness for C8's amended theorem: `u1` joins from `s1` on an empty map; the
map update is a `Map.set` under key `s1`, and a later `Map.set` under `s2`
leaves the `s1` entry intact. -/
theorem join_presence_keyed_by_socket_witness :
    (userJoin dbU1 [] "s1" ⟨none, some "u1"⟩).2 =
      mapSet [] "s1" ⟨"u1", "alice", true, some "s1"⟩ ∧
    mapLookup (mapSet [("s1", ⟨"u1", "alice", true, some "s1"⟩)] "s2"
        ⟨"u1", "alice", true, some "s2"⟩) "s1" =
      mapLookup [("s1", ⟨"u1", "alice", true, some "s1"⟩)] "s1" := by
  have h := join_presence_keyed_by_socket dbU1 [] "s1" "u1"
    ⟨"u1", "alice", false, none⟩ (by decide) (by decide)
  exact ⟨h.1, h.2 _ "s1" "s2" _ (by decide)⟩

/-- C9 (code evaluated at the failing input): the ambient "new private message"
notification of `private_message` goes through `sendNotification`, i.e.
`io.emit` — it is broadcast to every connected connection, and no
recipient-only (`user:` room) notification is emitted. -/
theorem privateMessage_notify_targets_global :
    notifyTargets (privateMessageHandler store0 pmPayloadW).2 =
      [NotifyTarget.allConns] ∧
    NotifyTarget.userRoom "u2" ∉
      notifyTargets (privateMessageHandler store0 pmPayloadW).2 := by
  decide

/-- C10: every inbound `message:delivered` on the chat namespace triggers both
registered handlers: when the referenced message exists, the effect list is
exactly the global `message:delivered` emit followed by the
`message:delivered:update` broadcast to everyone but the sender (and the
delivery mark is persisted when new); when the message does not exist, only the
`message:delivered:update` broadcast fires and the store is unchanged. -/
theorem delivered_dual_broadcast (store : Store) (p : DeliveredPayload) :
    (∀ msg, findMsg store p.messageId = some msg →
       (messageDeliveredDispatch store p).2 =
         [DlvEffect.emitAll "message:delivered" p.messageId p.userId,
          DlvEffect.broadcastToOthers "message:delivered:update" p.messageId p.userId] ∧
       (p.userId ∉ msg.deliveredBy →
          findMsg (messageDeliveredDispatch store p).1 p.messageId =
            some { msg with deliveredBy := msg.deliveredBy ++ [p.userId] })) ∧
    (findMsg store p.messageId = none →
       (messageDeliveredDispatch store p).2 =
         [DlvEffect.broadcastToOthers "message:delivered:update" p.messageId p.userId] ∧
       (messageDeliveredDispatch store p).1 = store) := by
  constructor
  · intro msg hfind
    constructor
    · simp [messageDeliveredDispatch, messageDeliveredPersist,
        messageDeliveredUpdate, hfind]
    · intro hnin
      have hidm : msg.id = p.messageId := by simpa using List.find?_some hfind
      have hex : (store.msgs.find? (fun x => x.id = p.messageId)).isSome := by
        unfold findMsg at hfind
        simp [hfind]
      simp only [messageDeliveredDispatch, messageDeliveredPersist, hfind]
      simpa [hnin, findMsg, saveMsg] using
        find?_replace store.msgs p.messageId
          { msg with deliveredBy := msg.deliveredBy ++ [p.userId] }
          (by simpa using hidm) hex
  · intro hnone
    simp [messageDeliveredDispatch, messageDeliveredPersist,
      messageDeliveredUpdate, hnone]

/-- Witness for C10: on a store holding message `"5"`, a delivered receipt
emits both broadcasts and persists the mark; on the empty store, only the
update broadcast fires. -/
theorem delivered_dual_broadcast_witness :
    ((messageDeliveredDispatch readStoreW ⟨"5", "u2"⟩).2 =
       [DlvEffect.emitAll "message:delivered" "5" "u2",
        DlvEffect.broadcastToOthers "message:delivered:update" "5" "u2"] ∧
     findMsg (messageDeliveredDispatch readStoreW ⟨"5", "u2"⟩).1 "5" =
       some { readMsgW with deliveredBy := ["u2"] }) ∧
    ((messageDeliveredDispatch store0 ⟨"9", "u2"⟩).2 =
       [DlvEffect.broadcastToOthers "message:delivered:update" "9" "u2"] ∧
     (messageDeliveredDispatch store0 ⟨"9", "u2"⟩).1 = store0) := by
  have h1 := (delivered_dual_broadcast readStoreW ⟨"5", "u2"⟩).1 readMsgW (by decide)
  have h2 := (delivered_dual_broadcast store0 ⟨"9", "u2"⟩).2 (by decide)
  exact ⟨⟨h1.1, by simpa using h1.2 (by decide)⟩, h2⟩

/-- C4: whenever the transport's `user:<id>` rooms track exactly the presence
tracker's inverse map (each identity's user room holds precisely its live
connection), the connection set reached by the code's `message:send` cascade
coincides with the spec's priority-ordered destination resolution — including
the silent skipping of recipients with no live connection and the echo to the
sender. -/
theorem fanout_priority_matches (net : Net) (presence : List (String × String))
    (senderConn : String) (p : SendPayload)
    (hlink : ∀ u c, c ∈ membersOf net ("user:" ++ u) ↔
        (presence.find? (fun q => q.1 = u)).map Prod.snd = some c) :
    ∀ c, c ∈ codeTargets net senderConn p ↔
      c ∈ specTargets net presence senderConn p := by
  intro c
  unfold codeTargets specTargets
  split
  · exact Iff.rfl
  · split
    · simp only [List.mem_append, List.mem_flatMap, List.mem_filterMap]
      constructor
      · rintro (⟨rid, hrid, hc⟩ | hc)
        · exact Or.inl ⟨rid, hrid, (hlink rid c).1 hc⟩
        · exact Or.inr hc
      · rintro (⟨rid, hrid, hc⟩ | hc)
        · exact Or.inl ⟨rid, hrid, (hlink rid c).2 hc⟩
        · exact Or.inr hc
    · exact Iff.rfl

/-- Transport state for the C4 witness: two connections, no rooms joined. -/
def netW : Net := { conns := ["c1", "c2"], rooms := [] }

/-- Send payload addressed to recipient `u2` for the C4 witness. -/
def sendToU2 : SendPayload :=
  { roomId := none, senderId := "u1", senderName := "alice",
    recipients := ["u2"], content := some "hi", attachments := none }

/-- Witness for C4: with no user rooms and an empty presence map (the link
hypothesis holds trivially), the code's targets agree with the spec's for a
recipient-addressed send. -/
theorem fanout_priority_matches_witness :
    ("c1" ∈ codeTargets netW "c1" sendToU2 ↔
      "c1" ∈ specTargets netW [] "c1" sendToU2) :=
  fanout_priority_matches netW [] "c1" sendToU2
    (by
      intro u c
      simp [membersOf, netW, List.find?])
    "c1"

end Chat
